import Mathlib

/-!
Shallow embedding of the coordination core of the `feedback` MCP server:
the session registry (`src/session-manager.ts`), the diagnostic collectors
(`src/capture/*.ts`), the active-surface resolver
(`src/interaction/selectors.ts`), the workflow executor
(`src/workflow/executor.ts`) with its caller-facing `run_workflow` tool, and
the assertion evaluator (`src/workflow/assertions.ts`).

JavaScript `Map` objects are embedded as association lists in insertion
order (`JMap`); asynchronous collaborator calls that may throw are embedded
as `Except String` outcomes; the wall clock and opaque Playwright handles
are abstracted to `Nat` identifiers.
-/

set_option autoImplicit false

namespace Feedback

/-! ## JavaScript `Map` embedding

A `Map<string, V>` is a list of key/value pairs in insertion order.
`Map.get` returns the first (in a real `Map`: the only) binding,
`Map.set` overwrites an existing binding in place or appends a new one,
and `Map.delete` removes the binding.  These are exactly the observable
semantics the registry relies on. -/

/-- A JavaScript `Map<string, V>` as an insertion-ordered association list. -/
abbrev JMap (V : Type) : Type := List (String × V)

/-- `Map.get(k)`: first binding of `k`, if any. -/
def jget {V : Type} : JMap V → String → Option V
  | [], _ => none
  | (k', v) :: rest, k => if k' = k then some v else jget rest k

/-- `Map.set(k, v)`: overwrite the binding of `k` in place, or append it. -/
def jset {V : Type} : JMap V → String → V → JMap V
  | [], k, v => [(k, v)]
  | (k', v') :: rest, k, v =>
      if k' = k then (k, v) :: rest else (k', v') :: jset rest k v

/-- `Map.delete(k)`: remove every binding of `k` (a real `Map` has at most one). -/
def jerase {V : Type} : JMap V → String → JMap V
  | [], _ => []
  | (k', v) :: rest, k =>
      if k' = k then jerase rest k else (k', v) :: jerase rest k

/-- Number of bindings of key `k` (1 at most in a well-formed `Map`). -/
def countKey {V : Type} : JMap V → String → Nat
  | [], _ => 0
  | (k', _) :: rest, k => (if k' = k then 1 else 0) + countKey rest k

/-- Character-list version of JavaScript `String.prototype.startsWith`:
`listStarts pre s` holds when `pre` is an initial segment of `s`. -/
def listStarts : List Char → List Char → Bool
  | [], _ => true
  | _ :: _, [] => false
  | a :: as, b :: bs => a == b && listStarts as bs

/-- JavaScript `s.startsWith(p)`. -/
def strStarts (s p : String) : Bool :=
  listStarts p.data s.data

/-- The composite key `` `${sessionId}:${identifier}` `` used by every
keyed map in the registry. -/
def sessKey (sessionId identifier : String) : String :=
  sessionId ++ ":" ++ identifier

/-- The scan pattern `` `${sessionId}:` `` used by the per-session
enumeration loops. -/
def sessScan (sessionId : String) : String :=
  sessionId ++ ":"

/-! ## Registry data model (`src/types/index.ts`, `src/screenshot/types.ts`,
`src/capture/types.ts`)

Opaque collaborator handles (Playwright pages, browsers, child processes)
are abstracted to `Nat` identities; an asynchronous call that can throw is
abstracted to its outcome, an `Except String Unit`. -/

/-- Outcome of an asynchronous collaborator call: `ok` or a thrown message. -/
abbrev Outcome : Type := Except String Unit

instance {ε α : Type} [DecidableEq ε] [DecidableEq α] : DecidableEq (Except ε α) := fun a b =>
  match a, b with
  | .error e, .error e' =>
      if h : e = e' then .isTrue (by rw [h]) else .isFalse (by simp [h])
  | .error _, .ok _ => .isFalse (by simp)
  | .ok _, .error _ => .isFalse (by simp)
  | .ok v, .ok v' =>
      if h : v = v' then .isTrue (by rw [h]) else .isFalse (by simp [h])

/-- `PageReference.type`: `"web" | "electron"`. -/
inductive PageType : Type
  | web
  | electron
  deriving DecidableEq, Repr

/-- `PageReference` (`src/screenshot/types.ts`).  `page` and `electronApp`
are opaque handles; for the closable handles `browser` and `browserContext`,
`some o` means the handle is present and closing it has outcome `o`. -/
structure PageReference : Type where
  type : PageType
  page : Nat
  browser : Option Outcome := none
  browserContext : Option Outcome := none
  electronApp : Option Nat := none
  url : Option String := none
  deriving DecidableEq, Repr

/-- A `Collector<T>` as the registry sees it (`src/capture/types.ts`):
an opaque object with identity `id` whose `detach()` call has the given
outcome.  The registry never reads entries, so the entry type is elided. -/
structure MCollector : Type where
  id : Nat
  detachOutcome : Outcome := .ok ()
  deriving DecidableEq, Repr

/-- A `Resource` (`src/types/index.ts`): a single `cleanup()` capability,
abstracted to the outcome of awaiting it. -/
structure Resource : Type where
  cleanupOutcome : Outcome
  deriving DecidableEq, Repr

/-- `AutoCaptureData` (`src/screenshot/types.ts`); `capturedAt` abstracts
the `Date`. -/
structure AutoCaptureData : Type where
  imageBase64 : String
  mimeType : String
  url : String
  capturedAt : Nat
  deriving DecidableEq, Repr

/-- A `Session` (`src/types/index.ts`); `createdAt` abstracts the `Date`. -/
structure Session : Type where
  id : String
  createdAt : Nat
  resources : List Resource
  deriving DecidableEq, Repr

/-- The `SessionManager` state (`src/session-manager.ts`): the session map
plus the five composite-keyed maps and the auto-capture map. -/
structure SessionManager : Type where
  sessions : JMap Session := []
  pageRefs : JMap PageReference := []
  autoCaptures : JMap AutoCaptureData := []
  consoleCollectors : JMap MCollector := []
  errorCollectors : JMap MCollector := []
  networkCollectors : JMap MCollector := []
  processCollectors : JMap MCollector := []
  deriving DecidableEq, Repr

namespace SessionManager

/-- `SessionManager.get`. -/
def get (sm : SessionManager) (id : String) : Option Session :=
  jget sm.sessions id

/-- `SessionManager.list`. -/
def list (sm : SessionManager) : List String :=
  sm.sessions.map Prod.fst

/-- `SessionManager.addResource`; throws `Session not found` on an unknown
session id. -/
def addResource (sm : SessionManager) (sessionId : String) (r : Resource) :
    Except String SessionManager :=
  match jget sm.sessions sessionId with
  | none => .error ("Session not found: " ++ sessionId)
  | some session =>
      .ok { sm with
              sessions := jset sm.sessions sessionId
                { session with resources := session.resources ++ [r] } }

/-- `SessionManager.setPageRef`; throws on an unknown session id. -/
def setPageRef (sm : SessionManager) (sessionId identifier : String)
    (ref : PageReference) : Except String SessionManager :=
  match jget sm.sessions sessionId with
  | none => .error ("Session not found: " ++ sessionId)
  | some _ =>
      .ok { sm with pageRefs := jset sm.pageRefs (sessKey sessionId identifier) ref }

/-- `SessionManager.getPageRef`. -/
def getPageRef (sm : SessionManager) (sessionId identifier : String) :
    Option PageReference :=
  jget sm.pageRefs (sessKey sessionId identifier)

/-- `SessionManager.getPageRefs`: all page references whose key starts with
`` `${sessionId}:` ``, in map order. -/
def getPageRefs (sm : SessionManager) (sessionId : String) : List PageReference :=
  (sm.pageRefs.filter fun kv => strStarts kv.1 (sessScan sessionId)).map Prod.snd

/-- `SessionManager.removePageRef`. -/
def removePageRef (sm : SessionManager) (sessionId identifier : String) :
    SessionManager :=
  { sm with pageRefs := jerase sm.pageRefs (sessKey sessionId identifier) }

/-- The per-map move performed by `rekeyIdentifier`: if the old key is
bound, delete it and bind the moved value under the new key; otherwise do
nothing.  (The source guards with `if (value)`; map values are objects,
which are always truthy, so the guard is a presence check.) -/
def rekeyMap {V : Type} (m : JMap V) (oldKey newKey : String) : JMap V :=
  match jget m oldKey with
  | none => m
  | some v => jset (jerase m oldKey) newKey v

/-- `SessionManager.rekeyIdentifier`: move the page reference and the four
collectors bound under `(sessionId, oldIdentifier)` to
`(sessionId, newIdentifier)`, skipping each map in which the old key is
absent. -/
def rekeyIdentifier (sm : SessionManager)
    (sessionId oldIdentifier newIdentifier : String) : SessionManager :=
  let oldKey := sessKey sessionId oldIdentifier
  let newKey := sessKey sessionId newIdentifier
  { sm with
      pageRefs := rekeyMap sm.pageRefs oldKey newKey
      consoleCollectors := rekeyMap sm.consoleCollectors oldKey newKey
      errorCollectors := rekeyMap sm.errorCollectors oldKey newKey
      networkCollectors := rekeyMap sm.networkCollectors oldKey newKey
      processCollectors := rekeyMap sm.processCollectors oldKey newKey }

/-- `SessionManager.setAutoCapture`. -/
def setAutoCapture (sm : SessionManager) (sessionId : String)
    (data : AutoCaptureData) : SessionManager :=
  { sm with autoCaptures := jset sm.autoCaptures sessionId data }

/-- `SessionManager.getAutoCapture`. -/
def getAutoCapture (sm : SessionManager) (sessionId : String) :
    Option AutoCaptureData :=
  jget sm.autoCaptures sessionId

/-- `SessionManager.setConsoleCollector`. -/
def setConsoleCollector (sm : SessionManager) (sessionId identifier : String)
    (c : MCollector) : SessionManager :=
  { sm with consoleCollectors := jset sm.consoleCollectors (sessKey sessionId identifier) c }

/-- `SessionManager.getConsoleCollector`. -/
def getConsoleCollector (sm : SessionManager) (sessionId identifier : String) :
    Option MCollector :=
  jget sm.consoleCollectors (sessKey sessionId identifier)

/-- `SessionManager.getConsoleCollectors` (per-session scan in map order). -/
def getConsoleCollectors (sm : SessionManager) (sessionId : String) :
    List MCollector :=
  (sm.consoleCollectors.filter fun kv => strStarts kv.1 (sessScan sessionId)).map Prod.snd

/-- `SessionManager.setErrorCollector`. -/
def setErrorCollector (sm : SessionManager) (sessionId identifier : String)
    (c : MCollector) : SessionManager :=
  { sm with errorCollectors := jset sm.errorCollectors (sessKey sessionId identifier) c }

/-- `SessionManager.getErrorCollector`. -/
def getErrorCollector (sm : SessionManager) (sessionId identifier : String) :
    Option MCollector :=
  jget sm.errorCollectors (sessKey sessionId identifier)

/-- `SessionManager.getErrorCollectors`. -/
def getErrorCollectors (sm : SessionManager) (sessionId : String) :
    List MCollector :=
  (sm.errorCollectors.filter fun kv => strStarts kv.1 (sessScan sessionId)).map Prod.snd

/-- `SessionManager.setNetworkCollector`. -/
def setNetworkCollector (sm : SessionManager) (sessionId identifier : String)
    (c : MCollector) : SessionManager :=
  { sm with networkCollectors := jset sm.networkCollectors (sessKey sessionId identifier) c }

/-- `SessionManager.getNetworkCollector`. -/
def getNetworkCollector (sm : SessionManager) (sessionId identifier : String) :
    Option MCollector :=
  jget sm.networkCollectors (sessKey sessionId identifier)

/-- `SessionManager.setProcessCollector`. -/
def setProcessCollector (sm : SessionManager) (sessionId identifier : String)
    (c : MCollector) : SessionManager :=
  { sm with processCollectors := jset sm.processCollectors (sessKey sessionId identifier) c }

/-- `SessionManager.getProcessCollector`. -/
def getProcessCollector (sm : SessionManager) (sessionId identifier : String) :
    Option MCollector :=
  jget sm.processCollectors (sessKey sessionId identifier)

/-- Teardown phase 1 of `destroy`: for every page reference of the session,
close `browserContext` and `browser` inside a `try`/`catch` that logs and
absorbs any failure, then delete the binding.  The close outcomes never
influence the resulting state, so the net state effect is the deletion of
the owned bindings. -/
def closeOwnedPageRefs (sessionId : String) : JMap PageReference → JMap PageReference
  | [] => []
  | (k, r) :: rest =>
      if strStarts k (sessScan sessionId) then closeOwnedPageRefs sessionId rest
      else (k, r) :: closeOwnedPageRefs sessionId rest

/-- Teardown phase 2 of `destroy`, per collector map: for every owned
binding, call `collector.detach()` and delete the binding.  Unlike the
other phases, the `detach()` call is not wrapped in `try`/`catch`, so a
throwing detach propagates out and aborts the sweep. -/
def detachOwned (sessionId : String) : JMap MCollector → Except String (JMap MCollector)
  | [] => .ok []
  | (k, c) :: rest =>
      if strStarts k (sessScan sessionId) then
        match c.detachOutcome with
        | .error e => .error e
        | .ok _ => detachOwned sessionId rest
      else (detachOwned sessionId rest).map fun r => (k, c) :: r

/-- `SessionManager.destroy`: no-op on an unknown id; otherwise close the
session page references (failures absorbed), detach and delete its
collectors in all four maps (a throwing `detach()` propagates — see
`detachOwned`), delete the auto-capture slot, attempt every resource
cleanup in order (failures absorbed), and remove the session. -/
def destroy (sm : SessionManager) (sessionId : String) :
    Except String SessionManager :=
  match jget sm.sessions sessionId with
  | none => .ok sm
  | some session =>
      let pr := closeOwnedPageRefs sessionId sm.pageRefs
      match detachOwned sessionId sm.consoleCollectors with
      | .error e => .error e
      | .ok cc =>
      match detachOwned sessionId sm.errorCollectors with
      | .error e => .error e
      | .ok ec =>
      match detachOwned sessionId sm.networkCollectors with
      | .error e => .error e
      | .ok nc =>
      match detachOwned sessionId sm.processCollectors with
      | .error e => .error e
      | .ok pc =>
      -- every resource cleanup is awaited inside try/catch: outcomes are
      -- logged and absorbed, so they do not influence the final state
      let _ := session.resources.map Resource.cleanupOutcome
      .ok { sessions := jerase sm.sessions sessionId
            pageRefs := pr
            autoCaptures := jerase sm.autoCaptures sessionId
            consoleCollectors := cc
            errorCollectors := ec
            networkCollectors := nc
            processCollectors := pc }

end SessionManager

/-! ## Active-surface resolver (`src/interaction/selectors.ts`) -/

/-- `PageDiscoveryResult`: either the discovered page with its identifier
and type, or an error with an optional list of available identifiers. -/
inductive PageDiscoveryResult : Type
  | ok (page : Nat) (identifier : String) (type : PageType)
  | err (message : String) (availablePages : Option (List String))
  deriving DecidableEq, Repr

/-- The display identifier of a page reference:
`r.type === "electron" ? "electron" : r.url ?? "unknown"`. -/
def refIdentifier (r : PageReference) : String :=
  match r.type with
  | .electron => "electron"
  | .web => r.url.getD "unknown"

/-- JavaScript truthiness of an optional string: `undefined` and `""` are
falsy. -/
def jsFalsy : Option String → Bool
  | none => true
  | some s => s = ""

/-- `getActivePage`: resolve the surface a request targets.  An explicit
identifier is looked up directly; with no identifier, a single surface is
auto-selected and zero or several surfaces are errors.  (The source tests
`if (pageIdentifier)`, so an empty-string identifier takes the
auto-discovery path.) -/
def getActivePage (sm : SessionManager) (sessionId : String)
    (pageIdentifier : Option String) : PageDiscoveryResult :=
  match sm.get sessionId with
  | none => .err ("Session not found: " ++ sessionId) none
  | some _ =>
      if !(jsFalsy pageIdentifier) then
        let pid := pageIdentifier.getD ""
        match sm.getPageRef sessionId pid with
        | none =>
            let refs := sm.getPageRefs sessionId
            let available := refs.map refIdentifier
            .err ("Page not found: " ++ pid)
              (if available.length > 0 then some available else none)
        | some ref => .ok ref.page pid ref.type
      else
        let refs := sm.getPageRefs sessionId
        match refs with
        | [] =>
            .err "No pages available in this session. Launch an app first with launch_web_server, launch_electron, or screenshot_web." none
        | [ref] => .ok ref.page (refIdentifier ref) ref.type
        | _ =>
            .err ("Multiple pages found (" ++ toString refs.length ++ "). Specify pageIdentifier to target a specific page.")
              (some (refs.map refIdentifier))

/-! ## Bounded collector buffer (`src/capture/console-collector.ts`,
`src/capture/process-collector.ts`)

Every collector stores its entries in a plain array and appends through the
same guard:

`if (entries.length >= maxEntries) { entries.shift(); } entries.push(entry);`
-/

/-- One event-handler insertion into the bounded entry buffer: when the
buffer has reached `maxEntries`, shift off the oldest entry, then push the
new one. -/
def insertEntry {α : Type} (maxEntries : Nat) (entries : List α) (e : α) : List α :=
  (if maxEntries ≤ entries.length then entries.drop 1 else entries) ++ [e]

/-- The buffer contents after the collector observed the events `es` in
order, starting from the empty buffer it is attached with. -/
def insertAll {α : Type} (maxEntries : Nat) (es : List α) : List α :=
  es.foldl (insertEntry maxEntries) []

/-- `getEntries()`: an immutable snapshot of the buffer. -/
def getEntries {α : Type} (entries : List α) : List α :=
  entries

/-! ## Workflow types (`src/workflow/types.ts`) -/

/-- A console log entry (`src/capture/types.ts`), with the optional source
location flattened to a triple. -/
structure ConsoleEntry : Type where
  timestamp : String
  level : String
  text : String
  location : Option (String × Nat × Nat) := none
  deriving DecidableEq, Repr

/-- An error/crash entry (`src/capture/types.ts`). -/
structure ErrorEntry : Type where
  timestamp : String
  type : String
  message : String
  stack : Option String := none
  deriving DecidableEq, Repr

/-- The step action tag.  `typeText` embeds the `"type"` action and
`waitFor` the `"wait"` action. -/
inductive StepAction : Type
  | click
  | typeText
  | navigate
  | screenshot
  | waitFor
  | assert
  deriving DecidableEq, Repr

/-- The thirteen assertion kinds of `WorkflowStep.assertType`.
`elExists` and `elNotExists` embed `"exists"` and `"not-exists"`. -/
inductive AssertType : Type
  | elExists
  | elNotExists
  | visible
  | hidden
  | textEquals
  | textContains
  | hasAttribute
  | attributeEquals
  | enabled
  | disabled
  | checked
  | notChecked
  | valueEquals
  deriving DecidableEq, Repr

/-- A workflow step: the flat schema with action-specific optional fields. -/
structure WorkflowStep : Type where
  action : StepAction
  selector : Option String := none
  text : Option String := none
  url : Option String := none
  button : Option String := none
  clickCount : Option Nat := none
  pressSequentially : Option Bool := none
  clear : Option Bool := none
  fullPage : Option Bool := none
  state : Option String := none
  assertType : Option AssertType := none
  expected : Option String := none
  -- the `attribute` field of the source schema (`attribute` is reserved in Lean)
  attr : Option String := none
  timeout : Option Nat := none
  deriving DecidableEq, Repr

/-- The structured result of an assertion evaluation
(`src/workflow/assertions.ts`).  `expected`/`actual` are `string | null`;
`assertType` and `selector` mirror the non-null-asserted step fields. -/
structure AssertionResult : Type where
  passed : Bool
  assertType : Option AssertType
  selector : Option String
  expected : Option String
  actual : Option String
  message : String
  deriving DecidableEq, Repr

/-- A per-step execution result (`src/workflow/types.ts`); the screenshot
is kept as its base64 payload and MIME type, and the timestamp is
abstracted. -/
structure StepResult : Type where
  stepIndex : Nat
  action : StepAction
  success : Bool
  timestamp : Nat := 0
  screenshotBase64 : Option String := none
  screenshotMimeType : Option String := none
  consoleDelta : List ConsoleEntry := []
  errorDelta : List ErrorEntry := []
  error : Option String := none
  assertion : Option AssertionResult := none
  deriving DecidableEq, Repr

/-- The overall workflow result (`src/workflow/types.ts`). -/
structure WorkflowResult : Type where
  steps : List StepResult
  totalSteps : Nat
  completedSteps : Nat
  failedStep : Option Nat
  deriving DecidableEq, Repr

/-! ## Assertion evaluator (`src/workflow/assertions.ts`)

The element queries the evaluator performs on the resolved locator are
collaborator calls; a `PageOracle` records the reply of each (a value, or a
thrown error).  `waitAttached` is the reply of
`locator.waitFor({ state: "attached", timeout })`. -/

/-- The replies of the automation surface to the locator queries the
assertion evaluator can make. -/
structure PageOracle : Type where
  countQ : Except String Nat
  waitAttached : Except String Unit
  isVisibleQ : Except String Bool
  innerTextQ : Except String String
  getAttributeQ : String → Except String (Option String)
  isEnabledQ : Except String Bool
  isCheckedQ : Except String Bool
  inputValueQ : Except String String

/-- JavaScript `String.prototype.trim`, on the character list. -/
def jsTrim (s : String) : String :=
  ⟨((s.data.dropWhile Char.isWhitespace).reverse.dropWhile Char.isWhitespace).reverse⟩

/-- Character-list version of JavaScript `String.prototype.includes`:
`listHasSegment hay pat` holds when `pat` occurs contiguously in `hay`. -/
def listHasSegment : List Char → List Char → Bool
  | [], pat => listStarts pat []
  | c :: t, pat => listStarts pat (c :: t) || listHasSegment t pat

/-- JavaScript `s.includes(sub)`. -/
def strIncludes (s sub : String) : Bool :=
  listHasSegment s.data sub.data

/-- Quote a string the way the source template literals do. -/
def q (s : String) : String :=
  "\"" ++ s ++ "\""

/-- The `...base` spread of the evaluator: the step fields every branch
copies into its result. -/
def assertBase (step : WorkflowStep) (passed : Bool)
    (expected actual : Option String) (message : String) : AssertionResult :=
  { passed := passed
    assertType := step.assertType
    selector := step.selector
    expected := expected
    actual := actual
    message := message }

/-- The `passed:false` record every attach-wait `catch` branch returns:
`actual` is always `"element not found in DOM"`. -/
def notFoundResult (step : WorkflowStep) (expected : Option String)
    (message : String) : AssertionResult :=
  assertBase step false expected (some "element not found in DOM") message

/-- `evaluateAssertion` (`src/workflow/assertions.ts`): evaluate one
assertion step against the surface.  Assertion failures are returned as
`passed:false` records; only an uncaught locator-query error propagates as
`.error`.  The `timeout` argument is forwarded to the collaborator calls
and so is absorbed by the oracle. -/
def evaluateAssertion (o : PageOracle) (step : WorkflowStep) (_timeout : Nat) :
    Except String AssertionResult :=
  let sel := step.selector.getD ""
  match step.assertType with
  | some .elExists =>
      match o.countQ with
      | .error e => .error e
      | .ok count =>
          let passed := count > 0
          .ok (assertBase step passed (some "element exists in DOM")
            (some (if count > 0 then "found (" ++ toString count ++ " matches)" else "not found"))
            (if passed then "PASS: Element " ++ q sel ++ " exists"
             else "FAIL: Element " ++ q sel ++ " does not exist"))
  | some .elNotExists =>
      match o.countQ with
      | .error e => .error e
      | .ok count =>
          let passed := count = 0
          .ok (assertBase step passed (some "element does not exist in DOM")
            (some (if count = 0 then "not found" else "found (" ++ toString count ++ " matches)"))
            (if passed then "PASS: Element " ++ q sel ++ " does not exist"
             else "FAIL: Element " ++ q sel ++ " exists"))
  | some .visible =>
      match o.waitAttached with
      | .error _ =>
          .ok (notFoundResult step (some "element is visible")
            ("FAIL: Element " ++ q sel ++ " not found in DOM (timeout waiting for attachment)"))
      | .ok _ =>
          match o.isVisibleQ with
          | .error e => .error e
          | .ok visible =>
              .ok (assertBase step visible (some "element is visible")
                (some (if visible then "visible" else "hidden"))
                (if visible then "PASS: Element " ++ q sel ++ " is visible"
                 else "FAIL: Element " ++ q sel ++ " is hidden"))
  | some .hidden =>
      match o.countQ with
      | .error e => .error e
      | .ok count =>
          if count = 0 then
            .ok (assertBase step true (some "element is hidden")
              (some "not in DOM (hidden)")
              ("PASS: Element " ++ q sel ++ " is not in DOM (counts as hidden)"))
          else
            match o.isVisibleQ with
            | .error e => .error e
            | .ok visible =>
                .ok (assertBase step (!visible) (some "element is hidden")
                  (some (if visible then "visible" else "hidden"))
                  (if !visible then "PASS: Element " ++ q sel ++ " is hidden"
                   else "FAIL: Element " ++ q sel ++ " is visible"))
  | some .textEquals =>
      match o.waitAttached with
      | .error _ =>
          .ok (notFoundResult step (some ("text equals " ++ q (step.expected.getD "undefined")))
            ("FAIL: Element " ++ q sel ++ " not found in DOM"))
      | .ok _ =>
          match o.innerTextQ with
          | .error e => .error e
          | .ok raw =>
              let text := jsTrim raw
              let passed := some text = step.expected
              .ok (assertBase step passed (some ("text equals " ++ q (step.expected.getD "undefined")))
                (some (q text))
                (if passed then "PASS: Text of " ++ q sel ++ " matches"
                 else "FAIL: Text of " ++ q sel ++ " is " ++ q text))
  | some .textContains =>
      match o.waitAttached with
      | .error _ =>
          .ok (notFoundResult step (some ("text contains " ++ q (step.expected.getD "undefined")))
            ("FAIL: Element " ++ q sel ++ " not found in DOM"))
      | .ok _ =>
          match o.innerTextQ with
          | .error e => .error e
          | .ok text =>
              let passed := strIncludes text (step.expected.getD "")
              .ok (assertBase step passed (some ("text contains " ++ q (step.expected.getD "undefined")))
                (some (q text))
                (if passed then "PASS: Text of " ++ q sel ++ " contains the expected text"
                 else "FAIL: Text of " ++ q sel ++ " does not contain the expected text"))
  | some .hasAttribute =>
      match o.waitAttached with
      | .error _ =>
          .ok (notFoundResult step (some ("has attribute " ++ q (step.attr.getD "undefined")))
            ("FAIL: Element " ++ q sel ++ " not found in DOM"))
      | .ok _ =>
          match o.getAttributeQ (step.attr.getD "undefined") with
          | .error e => .error e
          | .ok value =>
              let passed := value.isSome
              .ok (assertBase step passed (some ("has attribute " ++ q (step.attr.getD "undefined")))
                (some (if passed then "attribute present" else "attribute not found"))
                (if passed then "PASS: Element " ++ q sel ++ " has the attribute"
                 else "FAIL: Element " ++ q sel ++ " does not have the attribute"))
  | some .attributeEquals =>
      match o.waitAttached with
      | .error _ =>
          .ok (notFoundResult step
            (some ("attribute " ++ q (step.attr.getD "undefined") ++ " equals " ++ q (step.expected.getD "undefined")))
            ("FAIL: Element " ++ q sel ++ " not found in DOM"))
      | .ok _ =>
          match o.getAttributeQ (step.attr.getD "undefined") with
          | .error e => .error e
          | .ok value =>
              -- strict ===: a null attribute never equals an undefined expected
              let passed := match value, step.expected with
                | some v, some e => v = e
                | _, _ => false
              .ok (assertBase step passed
                (some ("attribute " ++ q (step.attr.getD "undefined") ++ " equals " ++ q (step.expected.getD "undefined")))
                (some (match value with | some v => q v | none => "attribute not found"))
                (if passed then "PASS: Attribute of " ++ q sel ++ " matches"
                 else "FAIL: Attribute of " ++ q sel ++ " does not match"))
  | some .enabled =>
      match o.waitAttached with
      | .error _ =>
          .ok (notFoundResult step (some "element is enabled")
            ("FAIL: Element " ++ q sel ++ " not found in DOM"))
      | .ok _ =>
          match o.isEnabledQ with
          | .error e => .error e
          | .ok enabled =>
              .ok (assertBase step enabled (some "element is enabled")
                (some (if enabled then "enabled" else "disabled"))
                (if enabled then "PASS: Element " ++ q sel ++ " is enabled"
                 else "FAIL: Element " ++ q sel ++ " is disabled"))
  | some .disabled =>
      match o.waitAttached with
      | .error _ =>
          .ok (notFoundResult step (some "element is disabled")
            ("FAIL: Element " ++ q sel ++ " not found in DOM"))
      | .ok _ =>
          match o.isEnabledQ with
          | .error e => .error e
          | .ok enabled =>
              .ok (assertBase step (!enabled) (some "element is disabled")
                (some (if enabled then "enabled" else "disabled"))
                (if !enabled then "PASS: Element " ++ q sel ++ " is disabled"
                 else "FAIL: Element " ++ q sel ++ " is enabled"))
  | some .checked =>
      match o.waitAttached with
      | .error _ =>
          .ok (notFoundResult step (some "element is checked")
            ("FAIL: Element " ++ q sel ++ " not found in DOM"))
      | .ok _ =>
          match o.isCheckedQ with
          | .error e => .error e
          | .ok checked =>
              .ok (assertBase step checked (some "element is checked")
                (some (if checked then "checked" else "not checked"))
                (if checked then "PASS: Element " ++ q sel ++ " is checked"
                 else "FAIL: Element " ++ q sel ++ " is not checked"))
  | some .notChecked =>
      match o.waitAttached with
      | .error _ =>
          .ok (notFoundResult step (some "element is not checked")
            ("FAIL: Element " ++ q sel ++ " not found in DOM"))
      | .ok _ =>
          match o.isCheckedQ with
          | .error e => .error e
          | .ok checked =>
              .ok (assertBase step (!checked) (some "element is not checked")
                (some (if checked then "checked" else "not checked"))
                (if !checked then "PASS: Element " ++ q sel ++ " is not checked"
                 else "FAIL: Element " ++ q sel ++ " is checked"))
  | some .valueEquals =>
      match o.waitAttached with
      | .error _ =>
          .ok (notFoundResult step (some ("value equals " ++ q (step.expected.getD "undefined")))
            ("FAIL: Element " ++ q sel ++ " not found in DOM"))
      | .ok _ =>
          match o.inputValueQ with
          | .error e => .error e
          | .ok value =>
              let passed := some value = step.expected
              .ok (assertBase step passed (some ("value equals " ++ q (step.expected.getD "undefined")))
                (some (q value))
                (if passed then "PASS: Value of " ++ q sel ++ " matches"
                 else "FAIL: Value of " ++ q sel ++ " does not match"))
  | none =>
      -- switch default: an absent (or, in TS, out-of-union) assertType
      .ok (assertBase step false none none "Unknown assertion type: undefined")

/-- The assertion kinds whose evaluation begins with the short
`waitFor({ state: "attached" })` wait (all kinds except `exists`,
`not-exists` and `hidden`). -/
def waitsForAttached : AssertType → Bool
  | .elExists => false
  | .elNotExists => false
  | .hidden => false
  | _ => true

/-! ## Workflow executor (`src/workflow/executor.ts`)

The executor drives collaborator calls (locator actions, `page.goto`,
screenshot capture) and reads the collector snapshots through the registry.
An `ExecEnv` records the reply of each collaborator call per step index:
`act i` is the outcome of step `i`'s surface action, `shot i` the outcome
of the post-step screenshot capture and optimization, `consoleSeen i` /
`errorsSeen i` the flattened contents of the session's console/error
collectors when step `i` reads them, and `pageAt i` the element-state
oracle at step `i` (used only by assert steps). -/

/-- The optimized screenshot payload a successful capture produces. -/
structure Screenshot : Type where
  data : String
  mimeType : String
  deriving DecidableEq, Repr

/-- A surface operation dispatched by the executor (the observable side
effects on the automation surface; the read-only screenshot capture is not
listed). -/
inductive SurfaceOp : Type
  | click (selector : String)
  | typeText (selector : String) (text : String)
  | goto (url : String)
  | waitForEl (selector : String)
  deriving DecidableEq, Repr

/-- The collaborator replies the executor consumes, indexed by step. -/
structure ExecEnv : Type where
  act : Nat → Except String Unit
  shot : Nat → Except String Screenshot
  consoleSeen : Nat → List ConsoleEntry
  errorsSeen : Nat → List ErrorEntry
  pageAt : Nat → PageOracle

/-- The mutable state the executor threads through the step loop:
the registry, the current page identifier (updated by `navigate` steps),
the two last-recorded log counts, and the trace of dispatched surface
operations. -/
structure ExecState : Type where
  sm : SessionManager
  pageIdentifier : String
  lastConsoleCount : Nat := 0
  lastErrorCount : Nat := 0
  trace : List SurfaceOp := []

/-- `validateStep` (`src/workflow/executor.ts`): required-field check per
action.  `click`/`wait` need a truthy `selector`, `type` needs a truthy
`selector` and a defined `text`, `navigate` needs a truthy `url`,
`screenshot` needs nothing.  The `assert` action is not handled by this
executor and falls into the switch default (quotes of the source messages
are elided). -/
def validateStep (step : WorkflowStep) (index : Nat) : Option String :=
  match step.action with
  | .click =>
      if jsFalsy step.selector then
        some ("Step " ++ toString index ++ ": click requires a selector field")
      else none
  | .typeText =>
      if jsFalsy step.selector then
        some ("Step " ++ toString index ++ ": type requires a selector field")
      else if step.text.isNone then
        some ("Step " ++ toString index ++ ": type requires a text field")
      else none
  | .navigate =>
      if jsFalsy step.url then
        some ("Step " ++ toString index ++ ": navigate requires a url field")
      else none
  | .waitFor =>
      if jsFalsy step.selector then
        some ("Step " ++ toString index ++ ": wait requires a selector field")
      else none
  | .screenshot => none
  | .assert =>
      some ("Step " ++ toString index ++ ": unknown action assert")

/-- The fresh per-step result record the loop initializes before
validating and dispatching step `i`. -/
def initResult (step : WorkflowStep) (i : Nat) : StepResult :=
  { stepIndex := i, action := step.action, success := false }

/-- The shared failure tail of the `catch` block: record the error, attempt
the best-effort screenshot, still capture the log deltas, and stop. -/
def failTail (env : ExecEnv) (i : Nat) (r : StepResult) (e : String)
    (st : ExecState) : StepResult × ExecState :=
  let r := { r with error := some e }
  let r := match env.shot i with
    | .ok s => { r with screenshotBase64 := some s.data, screenshotMimeType := some s.mimeType }
    | .error _ => r
  let allConsole := env.consoleSeen i
  let allErrors := env.errorsSeen i
  let r := { r with
    consoleDelta := allConsole.drop st.lastConsoleCount
    errorDelta := allErrors.drop st.lastErrorCount }
  (r, { st with lastConsoleCount := allConsole.length, lastErrorCount := allErrors.length })

/-- The shared success tail of the `try` block: capture the post-action
screenshot (a capture failure throws into the `catch`), compute the log
deltas since the previous step, and mark the step successful. -/
def successTail (env : ExecEnv) (i : Nat) (r : StepResult)
    (st : ExecState) : StepResult × ExecState :=
  match env.shot i with
  | .error e => failTail env i r e st
  | .ok s =>
      let r := { r with
        screenshotBase64 := some s.data, screenshotMimeType := some s.mimeType }
      let allConsole := env.consoleSeen i
      let allErrors := env.errorsSeen i
      let r := { r with
        consoleDelta := allConsole.drop st.lastConsoleCount
        errorDelta := allErrors.drop st.lastErrorCount
        success := true }
      (r, { st with lastConsoleCount := allConsole.length, lastErrorCount := allErrors.length })

/-- One iteration of the executor loop for the five source actions:
validate, dispatch the action, then run the success tail, any thrown error
falling into the failure tail.  The post-click stability wait of `click`
and the three input modes of `type` have no state effect beyond their
single collaborator outcome `env.act i`. -/
def stepRun (env : ExecEnv) (sessionId : String) (step : WorkflowStep)
    (i : Nat) (st : ExecState) : StepResult × ExecState :=
  match validateStep step i with
  | some err => ({ initResult step i with error := some err }, st)
  | none =>
      match step.action with
      | .click =>
          let st := { st with trace := st.trace ++ [.click (step.selector.getD "")] }
          match env.act i with
          | .error e => failTail env i (initResult step i) e st
          | .ok _ => successTail env i (initResult step i) st
      | .typeText =>
          let st := { st with
            trace := st.trace ++ [.typeText (step.selector.getD "") (step.text.getD "")] }
          match env.act i with
          | .error e => failTail env i (initResult step i) e st
          | .ok _ => successTail env i (initResult step i) st
      | .waitFor =>
          let st := { st with trace := st.trace ++ [.waitForEl (step.selector.getD "")] }
          match env.act i with
          | .error e => failTail env i (initResult step i) e st
          | .ok _ => successTail env i (initResult step i) st
      | .screenshot =>
          -- no dispatch: the screenshot is captured by the post-step phase
          successTail env i (initResult step i) st
      | .navigate =>
          let url := step.url.getD ""
          let st := { st with trace := st.trace ++ [.goto url] }
          match env.act i with
          | .error e => failTail env i (initResult step i) e st
          | .ok _ =>
              -- move the page reference to the new URL (only the page
              -- reference: the four collector maps are left untouched)
              match st.sm.getPageRef sessionId st.pageIdentifier with
              | none =>
                  let st := { st with pageIdentifier := url }
                  successTail env i (initResult step i) st
              | some oldRef =>
                  let sm1 := st.sm.removePageRef sessionId st.pageIdentifier
                  match sm1.setPageRef sessionId url { oldRef with url := some url } with
                  | .error e => failTail env i (initResult step i) e st
                  | .ok sm2 =>
                      let st := { st with sm := sm2, pageIdentifier := url }
                      successTail env i (initResult step i) st
      | .assert =>
          -- unreachable: validateStep rejects assert before dispatch
          ({ initResult step i with error := some "unreachable" }, st)

/-- The executor loop: run each step through `f`; push its result; a failed
step stops the loop. -/
def execGo (f : WorkflowStep → Nat → ExecState → StepResult × ExecState) :
    List WorkflowStep → Nat → ExecState → List StepResult × ExecState
  | [], _, st => ([], st)
  | step :: rest, i, st =>
      let p := f step i st
      if p.1.success then
        let rec' := execGo f rest (i + 1) p.2
        (p.1 :: rec'.1, rec'.2)
      else ([p.1], p.2)

/-- Assemble the `WorkflowResult` from the collected step results. -/
def buildResult (rs : List StepResult) (total : Nat) : WorkflowResult :=
  { steps := rs
    totalSteps := total
    completedSteps := (rs.filter fun r => r.success).length
    failedStep := (rs.find? fun r => !r.success).map StepResult.stepIndex }

/-- `executeWorkflow` (`src/workflow/executor.ts`): run the steps in order
against the surface, stop on the first failure, and return the per-step
results, the updated registry, and the trace of dispatched surface
operations. -/
def executeWorkflow (env : ExecEnv) (steps : List WorkflowStep)
    (sm : SessionManager) (sessionId pageIdentifier : String) :
    WorkflowResult × SessionManager × List SurfaceOp :=
  let (rs, st) := execGo (stepRun env sessionId) steps 0
    { sm := sm, pageIdentifier := pageIdentifier }
  (buildResult rs steps.length, st.sm, st.trace)

/-! ## The `run_workflow` tool (`src/tools/run-workflow.ts`) -/

/-- The caller-visible reply of the tool handler: either a structured
error built by `createToolError` (message, context, suggested fix) or the
workflow output. -/
inductive ToolResponse : Type
  | toolError (message : String) (context : Option String) (suggestedFix : Option String)
  | workflowOutput (result : WorkflowResult)
  deriving DecidableEq, Repr

/-- The step results a tool response carries (a `toolError` carries none). -/
def responseStepResults : ToolResponse → List StepResult
  | .toolError _ _ _ => []
  | .workflowOutput r => r.steps

/-- The body of the up-front validation loop of the tool handler, indexed
from `i`. -/
def collectErrorsFrom : List WorkflowStep → Nat → List String
  | [], _ => []
  | s :: rest, i =>
      match validateStep s i with
      | some e => e :: collectErrorsFrom rest (i + 1)
      | none => collectErrorsFrom rest (i + 1)

/-- The up-front validation loop of the tool handler: collect the
validation error of every step. -/
def collectValidationErrors (steps : List WorkflowStep) : List String :=
  collectErrorsFrom steps 0

/-- `registerRunWorkflowTool`'s handler (`src/tools/run-workflow.ts`):
check the session, discover the page, validate **all** steps up front, and
only then execute the workflow.  Returns the reply together with the
resulting registry state and the trace of dispatched surface operations. -/
def runWorkflowTool (env : ExecEnv) (sm : SessionManager) (sessionId : String)
    (steps : List WorkflowStep) (pageIdentifier : Option String) :
    ToolResponse × SessionManager × List SurfaceOp :=
  match sm.get sessionId with
  | none =>
      (.toolError ("Session not found: " ++ sessionId)
        (some "The session may have already been ended")
        (some "Create a session first with create_session."), sm, [])
  | some _ =>
      match getActivePage sm sessionId pageIdentifier with
      | .err e available =>
          (.toolError e (some ("Session: " ++ sessionId))
            (available.map fun a => "Available pages: " ++ String.intercalate ", " a),
           sm, [])
      | .ok _page identifier _type =>
          let validationErrors := collectValidationErrors steps
          if validationErrors.length > 0 then
            (.toolError "Workflow validation failed"
              (some (String.intercalate "; " validationErrors))
              (some "Fix the step parameters and retry."), sm, [])
          else
            let (result, sm', ops) := executeWorkflow env steps sm sessionId identifier
            (.workflowOutput result, sm', ops)

/-! ## Assert-capable executor

`tests/unit/tools/run-workflow.test.ts` and the project documentation
exercise `assert` workflow steps and per-step assertion records, but the
executor revision that dispatches `assert` steps is not part of this
snapshot — `src/workflow/executor.ts` still rejects the action as unknown.
The two definitions below model the missing assert support from the spec,
on top of the embedded source executor. -/

/-- Modelled from the spec: the required-field contract of `assert` steps
(missing from the snapshot's `validateStep`).  Per the step schema of
`src/workflow/types.ts`, `assert` requires `selector` and `assertType`;
every other action is validated exactly as the source `validateStep`
does. -/
def validateStepWithAssert (step : WorkflowStep) (index : Nat) : Option String :=
  match step.action with
  | .assert =>
      if jsFalsy step.selector then
        some ("Step " ++ toString index ++ ": assert requires a selector field")
      else if step.assertType.isNone then
        some ("Step " ++ toString index ++ ": assert requires an assertType field")
      else none
  | _ => validateStep step index

/-- Modelled from the spec: the `assert` branch of the workflow executor
(missing from the snapshot).  The step consults the assertion evaluator;
a `passed:false` record is recorded as a step failure carrying the
assertion record (best-effort screenshot and deltas included) and stops
the workflow; a passing record continues through the normal success tail;
an evaluator throw is caught like any action throw.  All other actions
behave exactly as the embedded source executor. -/
def stepRunWithAssert (env : ExecEnv) (sessionId : String)
    (step : WorkflowStep) (i : Nat) (st : ExecState) : StepResult × ExecState :=
  match validateStepWithAssert step i with
  | some err => ({ initResult step i with error := some err }, st)
  | none =>
      match step.action with
      | .assert =>
          match evaluateAssertion (env.pageAt i) step (step.timeout.getD 30000) with
          | .error e => failTail env i (initResult step i) e st
          | .ok ar =>
              let r := { initResult step i with assertion := some ar }
              if ar.passed then successTail env i r st
              else failTail env i r ar.message st
      | _ => stepRun env sessionId step i st

/-- Modelled from the spec: `executeWorkflow` with `assert` support — the
source executor loop run over `stepRunWithAssert`. -/
def executeWorkflowWithAssert (env : ExecEnv) (steps : List WorkflowStep)
    (sm : SessionManager) (sessionId pageIdentifier : String) :
    WorkflowResult × SessionManager × List SurfaceOp :=
  let (rs, st) := execGo (stepRunWithAssert env sessionId) steps 0
    { sm := sm, pageIdentifier := pageIdentifier }
  (buildResult rs steps.length, st.sm, st.trace)

/-! ## Concrete fixtures used by witnesses, counterexamples and
failing-input evaluations -/

/-- A session value with no resources. -/
def sessS : Session := { id := "s", createdAt := 0, resources := [] }

/-- A web page reference viewing `u1`. -/
def prWeb1 : PageReference := { type := .web, page := 1, url := some "u1" }

/-- A second web page reference viewing `u2`. -/
def prWeb2 : PageReference := { type := .web, page := 2, url := some "u2" }

/-- A collector whose `detach()` succeeds. -/
def colC : MCollector := { id := 5 }

/-- A second well-behaved collector. -/
def colD : MCollector := { id := 6 }

/-- A collector whose `detach()` throws `boom`. -/
def colBoom : MCollector := { id := 9, detachOutcome := .error "boom" }

/-- An element-state oracle whose every query succeeds (element found,
visible, enabled, unchecked, inner text `Hello`). -/
def oracleOk : PageOracle :=
  { countQ := .ok 1
    waitAttached := .ok ()
    isVisibleQ := .ok true
    innerTextQ := .ok "Hello"
    getAttributeQ := fun _ => .ok (some "v")
    isEnabledQ := .ok true
    isCheckedQ := .ok false
    inputValueQ := .ok "hello" }

/-- The same oracle, but the attached wait times out. -/
def oracleDetached : PageOracle :=
  { oracleOk with waitAttached := .error "Timeout 5000ms exceeded" }

/-- A collaborator environment in which every action and screenshot
succeeds and the collectors stay empty. -/
def envOk : ExecEnv :=
  { act := fun _ => .ok ()
    shot := fun _ => .ok { data := "img", mimeType := "image/webp" }
    consoleSeen := fun _ => []
    errorsSeen := fun _ => []
    pageAt := fun _ => oracleOk }

/-- The empty registry. -/
def smEmpty : SessionManager := {}

/-- Registry with a page reference under `(s, u)` — the `rekeyIdentifier`
self-move input. -/
def smC1 : SessionManager :=
  { pageRefs := [(sessKey "s" "u", prWeb1)] }

/-- Registry with one page reference and one console collector under
`(s, a)` — the re-keying witness input. -/
def smC1w : SessionManager :=
  { pageRefs := [(sessKey "s" "a", prWeb1)]
    consoleCollectors := [(sessKey "s" "a", colC)] }

/-- Registry in which every keyed map holds entries under both `(s, a)` and
`(s, b)` — the overwrite witness input. -/
def smC10 : SessionManager :=
  { pageRefs := [(sessKey "s" "a", prWeb1), (sessKey "s" "b", prWeb2)]
    consoleCollectors := [(sessKey "s" "a", colC), (sessKey "s" "b", colD)]
    errorCollectors := [(sessKey "s" "a", colC), (sessKey "s" "b", colD)]
    networkCollectors := [(sessKey "s" "a", colC), (sessKey "s" "b", colD)]
    processCollectors := [(sessKey "s" "a", colC), (sessKey "s" "b", colD)] }

/-- Registry holding session `s` with a single console collector whose
`detach()` throws — the `destroy` failing input. -/
def smC2 : SessionManager :=
  { sessions := [("s", sessS)]
    consoleCollectors := [(sessKey "s" "u", colBoom)] }

/-- Registry holding session `s`, a page reference and a console collector
under `(s, u1)` — the workflow-navigate failing input. -/
def smC5 : SessionManager :=
  { sessions := [("s", sessS)]
    pageRefs := [(sessKey "s" "u1", prWeb1)]
    consoleCollectors := [(sessKey "s" "u1", colC)] }

/-- A `navigate` step to `u2`. -/
def stepNavC5 : WorkflowStep := { action := .navigate, url := some "u2" }

/-- A `click` step with no selector — the canonical invalid step. -/
def stepClickBad : WorkflowStep := { action := .click }

/-- The StepResult the executor records for `stepClickBad` at index 0
(validation failure). -/
def resClickBad : StepResult :=
  { stepIndex := 0, action := .click, success := false,
    error := some "Step 0: click requires a selector field" }

/-- The `click(#ok)` step of the three-step assert scenario. -/
def stepClickC4 : WorkflowStep := { action := .click, selector := some "#ok" }

/-- The `type(#box, "hi")` step of the three-step assert scenario. -/
def stepTypeC4 : WorkflowStep :=
  { action := .typeText, selector := some "#box", text := some "hi" }

/-- The `assert(text-equals, "Wrong")` step of the three-step assert
scenario. -/
def stepAssertC4 : WorkflowStep :=
  { action := .assert, selector := some "#msg", assertType := some .textEquals,
    expected := some "Wrong" }

/-- The assertion record `evaluateAssertion` computes for `stepAssertC4`
against `oracleOk` (inner text `Hello`, expected `Wrong`). -/
def arC4 : AssertionResult :=
  { passed := false
    assertType := some .textEquals
    selector := some "#msg"
    expected := some ("text equals " ++ q "Wrong")
    actual := some (q "Hello")
    message := "FAIL: Text of " ++ q "#msg" ++ " is " ++ q "Hello" }

/-- An `assert visible` step. -/
def stepAssertVisible : WorkflowStep :=
  { action := .assert, selector := some "#x", assertType := some .visible }

/-- Registry for the tool witness: session `s` with one page reference. -/
def smC3 : SessionManager :=
  { sessions := [("s", sessS)]
    pageRefs := [(sessKey "s" "u1", prWeb1)] }

/-- Registry with a known session and no surfaces. -/
def smC8zero : SessionManager := { sessions := [("s", sessS)] }

/-- Registry with a known session and exactly one surface. -/
def smC8one : SessionManager :=
  { sessions := [("s", sessS)], pageRefs := [(sessKey "s" "u1", prWeb1)] }

/-- Registry with a known session and two surfaces. -/
def smC8two : SessionManager :=
  { sessions := [("s", sessS)]
    pageRefs := [(sessKey "s" "u1", prWeb1), (sessKey "s" "u2", prWeb2)] }

/-! ## Map lemmas -/

theorem jget_jset_self {V : Type} (m : JMap V) (k : String) (v : V) :
    jget (jset m k v) k = some v := by
  induction m with
  | nil => simp [jget, jset]
  | cons kv rest ih =>
      by_cases h : kv.1 = k
      · simp [jset, jget, h]
      · simp [jset, jget, h, ih]

theorem jget_jset_ne {V : Type} (m : JMap V) {k k' : String} (v : V)
    (h : k ≠ k') : jget (jset m k v) k' = jget m k' := by
  induction m with
  | nil => simp [jget, jset, h]
  | cons kv rest ih =>
      by_cases hk : kv.1 = k
      · simp [jset, jget, hk, h]
      · simp only [jset, hk, if_false, jget]
        by_cases hk' : kv.1 = k' <;> simp [jget, hk', ih]

theorem jget_jerase_self {V : Type} (m : JMap V) (k : String) :
    jget (jerase m k) k = none := by
  induction m with
  | nil => simp [jget, jerase]
  | cons kv rest ih =>
      obtain ⟨k1, v1⟩ := kv
      by_cases h : k1 = k
      · simpa [jerase, h] using ih
      · simpa [jerase, jget, h] using ih

theorem jget_jerase_ne {V : Type} (m : JMap V) {k k' : String}
    (h : k ≠ k') : jget (jerase m k) k' = jget m k' := by
  induction m with
  | nil => simp [jerase]
  | cons kv rest ih =>
      obtain ⟨k1, v1⟩ := kv
      by_cases hk : k1 = k
      · have hne : k1 ≠ k' := by rw [hk]; exact h
        rw [jerase, if_pos hk, ih, jget, if_neg hne]
      · by_cases hk' : k1 = k' <;> simp [jerase, jget, hk, hk', ih, Ne.symm h]

theorem mem_jerase {V : Type} {m : JMap V} {k : String} {x : String × V}
    (hx : x ∈ jerase m k) : x ∈ m ∧ x.1 ≠ k := by
  induction m with
  | nil => simp [jerase] at hx
  | cons kv rest ih =>
      obtain ⟨k1, v1⟩ := kv
      by_cases h : k1 = k
      · rw [jerase, if_pos h] at hx
        exact ⟨List.mem_cons_of_mem _ (ih hx).1, (ih hx).2⟩
      · rw [jerase, if_neg h] at hx
        rcases List.mem_cons.mp hx with hx1 | hx2
        · exact ⟨by simp [hx1], by rw [hx1]; exact h⟩
        · exact ⟨List.mem_cons_of_mem _ (ih hx2).1, (ih hx2).2⟩

theorem countKey_eq_zero_iff {V : Type} (m : JMap V) (k : String) :
    countKey m k = 0 ↔ ∀ x ∈ m, x.1 ≠ k := by
  induction m with
  | nil => simp [countKey]
  | cons kv rest ih =>
      obtain ⟨k1, v1⟩ := kv
      by_cases h : k1 = k <;> simp [countKey, h, ih]

theorem countKey_jerase_ne {V : Type} (m : JMap V) {k k' : String}
    (h : k ≠ k') : countKey (jerase m k) k' = countKey m k' := by
  induction m with
  | nil => simp [jerase]
  | cons kv rest ih =>
      obtain ⟨k1, v1⟩ := kv
      by_cases hk : k1 = k
      · have hne : k1 ≠ k' := by rw [hk]; exact h
        rw [jerase, if_pos hk, ih, countKey, if_neg hne, Nat.zero_add]
      · by_cases hk' : k1 = k' <;> simp [jerase, countKey, hk, hk', ih, Ne.symm h]

theorem countKey_jset_self {V : Type} (m : JMap V) (k : String) (v : V)
    (h : countKey m k ≤ 1) : countKey (jset m k v) k = 1 := by
  induction m with
  | nil => simp [jset, countKey]
  | cons kv rest ih =>
      obtain ⟨k1, v1⟩ := kv
      by_cases hk : k1 = k
      · rw [countKey, if_pos hk] at h
        have h0 : countKey rest k = 0 := by omega
        simp [jset, hk, countKey, h0]
      · rw [countKey, if_neg hk] at h
        simp only [Nat.zero_add] at h
        simp [jset, hk, countKey, ih h]

theorem mem_jset_le_one {V : Type} {m : JMap V} {k : String} {v : V}
    (h : countKey m k ≤ 1) {x : String × V} (hx : x ∈ jset m k v) :
    x = (k, v) ∨ (x ∈ m ∧ x.1 ≠ k) := by
  induction m with
  | nil =>
      simp [jset] at hx
      simp [hx]
  | cons kv rest ih =>
      obtain ⟨k1, v1⟩ := kv
      by_cases hk : k1 = k
      · rw [countKey, if_pos hk] at h
        have h0 : countKey rest k = 0 := by omega
        rw [jset, if_pos hk] at hx
        rcases List.mem_cons.mp hx with hx1 | hx2
        · exact Or.inl hx1
        · exact Or.inr ⟨List.mem_cons_of_mem _ hx2,
            (countKey_eq_zero_iff rest k).mp h0 x hx2⟩
      · rw [countKey, if_neg hk] at h
        simp only [Nat.zero_add] at h
        rw [jset, if_neg hk] at hx
        rcases List.mem_cons.mp hx with hx1 | hx2
        · exact Or.inr ⟨by simp [hx1], by rw [hx1]; exact hk⟩
        · rcases ih h hx2 with h1 | h2
          · exact Or.inl h1
          · exact Or.inr ⟨List.mem_cons_of_mem _ h2.1, h2.2⟩

/-! ## Key lemmas -/

theorem sessKey_inj_right {S A B : String} (h : sessKey S A = sessKey S B) :
    A = B := by
  have hd := congrArg String.data h
  simp only [sessKey, String.data_append, List.append_assoc] at hd
  exact String.ext (List.append_cancel_left (List.append_cancel_left hd))

theorem sessKey_ne {S A B : String} (h : A ≠ B) :
    sessKey S A ≠ sessKey S B := fun hc => h (sessKey_inj_right hc)

/-! ## `rekeyMap` lemmas -/

theorem rekeyMap_jget_old {V : Type} (m : JMap V) {oldK newK : String}
    (h : oldK ≠ newK) :
    jget (SessionManager.rekeyMap m oldK newK) oldK = none := by
  unfold SessionManager.rekeyMap
  cases hv : jget m oldK with
  | none => simpa using hv
  | some v => rw [jget_jset_ne _ _ (Ne.symm h), jget_jerase_self]

theorem rekeyMap_moves {V : Type} (m : JMap V) (oldK newK : String) {v : V}
    (hv : jget m oldK = some v) :
    jget (SessionManager.rekeyMap m oldK newK) newK = some v := by
  unfold SessionManager.rekeyMap
  rw [hv]
  exact jget_jset_self _ _ _

theorem rekeyMap_noop {V : Type} (m : JMap V) (oldK newK : String)
    (h : jget m oldK = none) :
    SessionManager.rekeyMap m oldK newK = m := by
  unfold SessionManager.rekeyMap
  rw [h]

theorem rekeyMap_overwrites {V : Type} (m : JMap V) {oldK newK : String}
    (hne : oldK ≠ newK) {vA vB : V}
    (hA : jget m oldK = some vA) (_hB : jget m newK = some vB)
    (hcount : countKey m newK ≤ 1) :
    jget (SessionManager.rekeyMap m oldK newK) newK = some vA
    ∧ countKey (SessionManager.rekeyMap m oldK newK) newK = 1
    ∧ jget (SessionManager.rekeyMap m oldK newK) oldK = none
    ∧ (vA ≠ vB → (∀ x ∈ m, x.2 = vB → x.1 = newK) →
        ∀ x ∈ SessionManager.rekeyMap m oldK newK, x.2 ≠ vB) := by
  refine ⟨rekeyMap_moves m oldK newK hA, ?_, rekeyMap_jget_old m hne, ?_⟩
  · unfold SessionManager.rekeyMap
    rw [hA]
    exact countKey_jset_self _ _ _ (by rw [countKey_jerase_ne m hne]; exact hcount)
  · intro hvne honly x hx hxv
    unfold SessionManager.rekeyMap at hx
    rw [hA] at hx
    have hc' : countKey (jerase m oldK) newK ≤ 1 := by
      rw [countKey_jerase_ne m hne]; exact hcount
    rcases mem_jset_le_one hc' hx with h1 | h2
    · exact hvne (by rw [h1] at hxv; simpa using hxv)
    · have hmem := mem_jerase h2.1
      exact h2.2 (honly x hmem.1 hxv)

/-! ## Claim theorems -/

/-- C1 (corrected: the old and the new identifier must be distinct — see
`claim1_counterexample`).  For distinct identifiers `A ≠ B`,
`rekeyIdentifier S A B` moves the page reference and all four collectors:
afterwards every lookup under `(S, A)` is absent; whatever was stored under
`(S, A)` in each map is found unchanged under `(S, B)`; each map in which
`(S, A)` was absent is untouched; and when no map held `(S, A)` the whole
registry is unchanged. -/
theorem claim1_rekey_moves (sm : SessionManager) (S A B : String)
    (hAB : A ≠ B) :
    ((sm.rekeyIdentifier S A B).getPageRef S A = none
      ∧ (sm.rekeyIdentifier S A B).getConsoleCollector S A = none
      ∧ (sm.rekeyIdentifier S A B).getErrorCollector S A = none
      ∧ (sm.rekeyIdentifier S A B).getNetworkCollector S A = none
      ∧ (sm.rekeyIdentifier S A B).getProcessCollector S A = none)
    ∧ ((∀ v, sm.getPageRef S A = some v →
          (sm.rekeyIdentifier S A B).getPageRef S B = some v)
      ∧ (∀ c, sm.getConsoleCollector S A = some c →
          (sm.rekeyIdentifier S A B).getConsoleCollector S B = some c)
      ∧ (∀ c, sm.getErrorCollector S A = some c →
          (sm.rekeyIdentifier S A B).getErrorCollector S B = some c)
      ∧ (∀ c, sm.getNetworkCollector S A = some c →
          (sm.rekeyIdentifier S A B).getNetworkCollector S B = some c)
      ∧ (∀ c, sm.getProcessCollector S A = some c →
          (sm.rekeyIdentifier S A B).getProcessCollector S B = some c))
    ∧ ((sm.getPageRef S A = none →
          (sm.rekeyIdentifier S A B).pageRefs = sm.pageRefs)
      ∧ (sm.getConsoleCollector S A = none →
          (sm.rekeyIdentifier S A B).consoleCollectors = sm.consoleCollectors)
      ∧ (sm.getErrorCollector S A = none →
          (sm.rekeyIdentifier S A B).errorCollectors = sm.errorCollectors)
      ∧ (sm.getNetworkCollector S A = none →
          (sm.rekeyIdentifier S A B).networkCollectors = sm.networkCollectors)
      ∧ (sm.getProcessCollector S A = none →
          (sm.rekeyIdentifier S A B).processCollectors = sm.processCollectors))
    ∧ (sm.getPageRef S A = none → sm.getConsoleCollector S A = none →
        sm.getErrorCollector S A = none → sm.getNetworkCollector S A = none →
        sm.getProcessCollector S A = none → sm.rekeyIdentifier S A B = sm) := by
  have hne := sessKey_ne (S := S) hAB
  refine ⟨⟨?_, ?_, ?_, ?_, ?_⟩, ⟨?_, ?_, ?_, ?_, ?_⟩, ⟨?_, ?_, ?_, ?_, ?_⟩, ?_⟩
  · exact rekeyMap_jget_old _ hne
  · exact rekeyMap_jget_old _ hne
  · exact rekeyMap_jget_old _ hne
  · exact rekeyMap_jget_old _ hne
  · exact rekeyMap_jget_old _ hne
  · exact fun v hv => rekeyMap_moves _ _ _ hv
  · exact fun c hc => rekeyMap_moves _ _ _ hc
  · exact fun c hc => rekeyMap_moves _ _ _ hc
  · exact fun c hc => rekeyMap_moves _ _ _ hc
  · exact fun c hc => rekeyMap_moves _ _ _ hc
  · exact fun h => rekeyMap_noop _ _ _ h
  · exact fun h => rekeyMap_noop _ _ _ h
  · exact fun h => rekeyMap_noop _ _ _ h
  · exact fun h => rekeyMap_noop _ _ _ h
  · exact fun h => rekeyMap_noop _ _ _ h
  · intro h1 h2 h3 h4 h5
    simp only [SessionManager.rekeyIdentifier]
    rw [rekeyMap_noop _ _ _ h1, rekeyMap_noop _ _ _ h2, rekeyMap_noop _ _ _ h3,
      rekeyMap_noop _ _ _ h4, rekeyMap_noop _ _ _ h5]

/-- C1 counterexample: re-keying with `A = B` (both `u`) does not make
lookups under `(S, A)` absent — the binding survives under the very same
key, so the claim as stated (quantified over all identifier pairs) fails. -/
theorem claim1_counterexample :
    ¬ ((smC1.rekeyIdentifier "s" "u" "u").getPageRef "s" "u" = none) := by
  decide

/-- C1 witness: a concrete re-key from `a` to `b` moves the page reference
and the console collector and empties the old key. -/
theorem claim1_witness :
    (smC1w.rekeyIdentifier "s" "a" "b").getPageRef "s" "a" = none
    ∧ (smC1w.rekeyIdentifier "s" "a" "b").getConsoleCollector "s" "a" = none
    ∧ (smC1w.rekeyIdentifier "s" "a" "b").getPageRef "s" "b" = some prWeb1
    ∧ (smC1w.rekeyIdentifier "s" "a" "b").getConsoleCollector "s" "b" = some colC := by
  have h := claim1_rekey_moves smC1w "s" "a" "b" (by decide)
  exact ⟨h.1.1, h.1.2.1,
    h.2.1.1 prWeb1 (by decide),
    h.2.1.2.1 colC (by decide)⟩

/-- C10 (confirmed): when a map holds entries under both `(S, A)` and
`(S, B)` with `A ≠ B`, `rekeyIdentifier S A B` silently overwrites the
`(S, B)` entry with the `(S, A)` one: afterwards the lookup under `(S, B)`
yields the value moved from `(S, A)`, exactly one binding of `(S, B)`
remains in that map, `(S, A)` is absent, and the displaced value no longer
occurs in the map (it is dropped, no detach is performed — `rekeyIdentifier`
is a pure map transformation).  Stated for each of the five maps. -/
theorem claim10_rekey_overwrites (sm : SessionManager) (S A B : String)
    (hAB : A ≠ B) :
    (∀ vA vB, sm.getPageRef S A = some vA → sm.getPageRef S B = some vB →
      countKey sm.pageRefs (sessKey S B) ≤ 1 →
      (sm.rekeyIdentifier S A B).getPageRef S B = some vA
      ∧ countKey (sm.rekeyIdentifier S A B).pageRefs (sessKey S B) = 1
      ∧ (sm.rekeyIdentifier S A B).getPageRef S A = none
      ∧ (vA ≠ vB → (∀ x ∈ sm.pageRefs, x.2 = vB → x.1 = sessKey S B) →
          ∀ x ∈ (sm.rekeyIdentifier S A B).pageRefs, x.2 ≠ vB))
    ∧ (∀ vA vB, sm.getConsoleCollector S A = some vA →
      sm.getConsoleCollector S B = some vB →
      countKey sm.consoleCollectors (sessKey S B) ≤ 1 →
      (sm.rekeyIdentifier S A B).getConsoleCollector S B = some vA
      ∧ countKey (sm.rekeyIdentifier S A B).consoleCollectors (sessKey S B) = 1
      ∧ (sm.rekeyIdentifier S A B).getConsoleCollector S A = none
      ∧ (vA ≠ vB → (∀ x ∈ sm.consoleCollectors, x.2 = vB → x.1 = sessKey S B) →
          ∀ x ∈ (sm.rekeyIdentifier S A B).consoleCollectors, x.2 ≠ vB))
    ∧ (∀ vA vB, sm.getErrorCollector S A = some vA →
      sm.getErrorCollector S B = some vB →
      countKey sm.errorCollectors (sessKey S B) ≤ 1 →
      (sm.rekeyIdentifier S A B).getErrorCollector S B = some vA
      ∧ countKey (sm.rekeyIdentifier S A B).errorCollectors (sessKey S B) = 1
      ∧ (sm.rekeyIdentifier S A B).getErrorCollector S A = none
      ∧ (vA ≠ vB → (∀ x ∈ sm.errorCollectors, x.2 = vB → x.1 = sessKey S B) →
          ∀ x ∈ (sm.rekeyIdentifier S A B).errorCollectors, x.2 ≠ vB))
    ∧ (∀ vA vB, sm.getNetworkCollector S A = some vA →
      sm.getNetworkCollector S B = some vB →
      countKey sm.networkCollectors (sessKey S B) ≤ 1 →
      (sm.rekeyIdentifier S A B).getNetworkCollector S B = some vA
      ∧ countKey (sm.rekeyIdentifier S A B).networkCollectors (sessKey S B) = 1
      ∧ (sm.rekeyIdentifier S A B).getNetworkCollector S A = none
      ∧ (vA ≠ vB → (∀ x ∈ sm.networkCollectors, x.2 = vB → x.1 = sessKey S B) →
          ∀ x ∈ (sm.rekeyIdentifier S A B).networkCollectors, x.2 ≠ vB))
    ∧ (∀ vA vB, sm.getProcessCollector S A = some vA →
      sm.getProcessCollector S B = some vB →
      countKey sm.processCollectors (sessKey S B) ≤ 1 →
      (sm.rekeyIdentifier S A B).getProcessCollector S B = some vA
      ∧ countKey (sm.rekeyIdentifier S A B).processCollectors (sessKey S B) = 1
      ∧ (sm.rekeyIdentifier S A B).getProcessCollector S A = none
      ∧ (vA ≠ vB → (∀ x ∈ sm.processCollectors, x.2 = vB → x.1 = sessKey S B) →
          ∀ x ∈ (sm.rekeyIdentifier S A B).processCollectors, x.2 ≠ vB)) := by
  have hne := sessKey_ne (S := S) hAB
  exact ⟨fun vA vB hA hB hc => rekeyMap_overwrites _ hne hA hB hc,
    fun vA vB hA hB hc => rekeyMap_overwrites _ hne hA hB hc,
    fun vA vB hA hB hc => rekeyMap_overwrites _ hne hA hB hc,
    fun vA vB hA hB hc => rekeyMap_overwrites _ hne hA hB hc,
    fun vA vB hA hB hc => rekeyMap_overwrites _ hne hA hB hc⟩

/-- C10 witness: with both `(s, a)` and `(s, b)` bound in every map,
re-keying `a` to `b` leaves the moved values under `(s, b)` and drops the
displaced ones. -/
theorem claim10_witness :
    (smC10.rekeyIdentifier "s" "a" "b").getConsoleCollector "s" "b" = some colC
    ∧ countKey (smC10.rekeyIdentifier "s" "a" "b").consoleCollectors (sessKey "s" "b") = 1
    ∧ (smC10.rekeyIdentifier "s" "a" "b").getConsoleCollector "s" "a" = none
    ∧ (∀ x ∈ (smC10.rekeyIdentifier "s" "a" "b").consoleCollectors, x.2 ≠ colD)
    ∧ (smC10.rekeyIdentifier "s" "a" "b").getPageRef "s" "b" = some prWeb1 := by
  have h := claim10_rekey_overwrites smC10 "s" "a" "b" (by decide)
  have hc := h.2.1 colC colD (by decide) (by decide) (by decide)
  have hp := h.1 prWeb1 prWeb2 (by decide) (by decide) (by decide)
  exact ⟨hc.1, hc.2.1, hc.2.2.1,
    hc.2.2.2 (by decide) (by decide), hp.1⟩

/-- C2, evaluated at the failing input: a session holding one console
collector whose `detach()` throws makes `destroy` propagate the exception
(the collector sweep is the one teardown phase whose operations are not
wrapped in `try`/`catch`), contradicting the never-throws claim and the
never-throws doc comment of `destroy` itself.  Destroying an unknown id,
by contrast, is the documented no-op. -/
theorem claim2_destroy_throws_on_detach_failure :
    smC2.destroy "s" = .error "boom"
    ∧ smC2.destroy "unknown" = .ok smC2 := by
  decide

/-- C7 (corrected: the bound must be at least 1 — see
`claim7_counterexample`).  For a collector attached with `maxEntries = N ≥ 1`
that observed the events `l` in order: the buffer snapshot is exactly the
last `N` entries of `l` in their original relative order, and at no point
of any observation sequence does the entry count exceed `N`. -/
theorem claim7_bounded_fifo {α : Type} (N : Nat) (hN : 1 ≤ N) (l : List α) :
    getEntries (insertAll N l) = l.drop (l.length - N)
    ∧ ∀ k, (insertAll N (l.take k)).length ≤ N := by
  have main : ∀ l' : List α, insertAll N l' = l'.drop (l'.length - N) := by
    intro l'
    induction l' using List.reverseRecOn with
    | nil => simp [insertAll]
    | append_singleton xs e ih =>
        rw [insertAll, List.foldl_append]
        rw [show List.foldl (insertEntry N) [] xs = insertAll N xs from rfl, ih]
        simp only [List.foldl_cons, List.foldl_nil]
        rw [insertEntry]
        have hlen : (xs.drop (xs.length - N)).length = xs.length - (xs.length - N) := by
          simp
        by_cases hx : N ≤ xs.length
        · have hbuf : N ≤ (xs.drop (xs.length - N)).length := by omega
          rw [if_pos hbuf, List.drop_drop]
          have h1 : xs.length - N + 1 = xs.length + 1 - N := by omega
          have h2 : xs.length + 1 - N ≤ xs.length := by omega
          have h3 : (xs ++ [e]).length - N = xs.length + 1 - N := by
            simp
          rw [h3, List.drop_append_of_le_length h2, h1]
        · have hbuf : ¬ N ≤ (xs.drop (xs.length - N)).length := by omega
          rw [if_neg hbuf]
          have h0 : xs.length - N = 0 := by omega
          have h0' : (xs ++ [e]).length - N = 0 := by simp; omega
          rw [h0, h0']
          simp
  refine ⟨main l, fun k => ?_⟩
  rw [main (l.take k)]
  simp only [List.length_drop]
  omega

/-- C7 counterexample: a collector attached with `maxEntries = 0` still
buffers one entry after one observation (`shift` on the empty array is a
no-op, then `push` appends), so the entry count exceeds the configured
maximum and the snapshot is not the last `0` entries. -/
theorem claim7_counterexample :
    (insertAll 0 [(42 : Nat)]).length = 1
    ∧ ¬ ((insertAll 0 [(42 : Nat)]).length ≤ 0) := by
  decide

/-- C7 witness: bound 2 over five observed events keeps exactly the last
two, in order, and never exceeds two entries. -/
theorem claim7_witness :
    getEntries (insertAll 2 [10, 20, 30, 40, 50]) = [40, 50]
    ∧ (insertAll 2 (([10, 20, 30, 40, 50] : List Nat).take 3)).length ≤ 2 := by
  have h := claim7_bounded_fifo 2 (by decide) ([10, 20, 30, 40, 50] : List Nat)
  exact ⟨by rw [h.1]; rfl, h.2 3⟩

/-- C8 (confirmed): resolving with no identifier behaves by surface count.
An unknown session fails immediately; a known session with zero surfaces
fails naming no alternatives; with exactly one surface that surface is
auto-selected; with two or more surfaces the failure lists available
identifiers, one per surface. -/
theorem claim8_resolver_by_count (sm : SessionManager) (sessionId : String) :
    (sm.get sessionId = none →
      getActivePage sm sessionId none =
        .err ("Session not found: " ++ sessionId) none)
    ∧ (∀ sess, sm.get sessionId = some sess →
        (sm.getPageRefs sessionId = [] →
          getActivePage sm sessionId none =
            .err "No pages available in this session. Launch an app first with launch_web_server, launch_electron, or screenshot_web." none)
        ∧ (∀ r, sm.getPageRefs sessionId = [r] →
            getActivePage sm sessionId none = .ok r.page (refIdentifier r) r.type)
        ∧ (2 ≤ (sm.getPageRefs sessionId).length →
            ∃ msg available, getActivePage sm sessionId none = .err msg (some available)
              ∧ available.length = (sm.getPageRefs sessionId).length)) := by
  constructor
  · intro h
    simp [getActivePage, h]
  · intro sess hsess
    refine ⟨?_, ?_, ?_⟩
    · intro h0
      simp [getActivePage, hsess, jsFalsy, h0]
    · intro r h1
      simp [getActivePage, hsess, jsFalsy, h1]
    · intro h2
      match hr : sm.getPageRefs sessionId with
      | [] => rw [hr] at h2; simp at h2
      | [r] => rw [hr] at h2; simp at h2
      | r1 :: r2 :: rest =>
          refine ⟨"Multiple pages found (" ++ toString (r1 :: r2 :: rest).length ++ "). Specify pageIdentifier to target a specific page.",
            (r1 :: r2 :: rest).map refIdentifier, ?_, by simp [hr]⟩
          simp [getActivePage, hsess, jsFalsy, hr]

/-- C8 witness: the four behaviors at concrete registries — unknown
session, zero surfaces, one surface, two surfaces. -/
theorem claim8_witness :
    getActivePage smEmpty "s" none = .err ("Session not found: " ++ "s") none
    ∧ getActivePage smC8zero "s" none =
        .err "No pages available in this session. Launch an app first with launch_web_server, launch_electron, or screenshot_web." none
    ∧ getActivePage smC8one "s" none =
        .ok prWeb1.page (refIdentifier prWeb1) prWeb1.type
    ∧ (∃ msg available, getActivePage smC8two "s" none = .err msg (some available)
        ∧ available.length = (smC8two.getPageRefs "s").length) := by
  refine ⟨?_, ?_, ?_, ?_⟩
  · exact (claim8_resolver_by_count smEmpty "s").1 (by decide)
  · exact ((claim8_resolver_by_count smC8zero "s").2 sessS (by decide)).1 (by decide)
  · exact ((claim8_resolver_by_count smC8one "s").2 sessS (by decide)).2.1 prWeb1 (by decide)
  · exact ((claim8_resolver_by_count smC8two "s").2 sessS (by decide)).2.2 (by decide)

/-- C9 (confirmed): for each of the thirteen assertion kinds, when the
locator queries answer without a collaborator failure the evaluator
returns a structured record rather than throwing (assertion failure is
data); and for every kind that first waits for attachment, a failing
attached-wait yields a normal record with `passed = false` and
`actual = "element not found in DOM"` — never an exception.  Only a
failing locator query can make the evaluator throw. -/
theorem claim9_assertion_failure_is_data (o : PageOracle) (step : WorkflowStep)
    (tmo : Nat) (k : AssertType) (hk : step.assertType = some k)
    (hc : ∃ n, o.countQ = .ok n) (hv : ∃ b, o.isVisibleQ = .ok b)
    (ht : ∃ s, o.innerTextQ = .ok s)
    (ha : ∀ a, ∃ v, o.getAttributeQ a = .ok v)
    (he : ∃ b, o.isEnabledQ = .ok b) (hch : ∃ b, o.isCheckedQ = .ok b)
    (hi : ∃ s, o.inputValueQ = .ok s) :
    (∃ r, evaluateAssertion o step tmo = .ok r)
    ∧ (waitsForAttached k = true → ∀ e, o.waitAttached = .error e →
        ∀ r, evaluateAssertion o step tmo = .ok r →
          r.passed = false ∧ r.actual = some "element not found in DOM") := by
  obtain ⟨n, hn⟩ := hc
  obtain ⟨b, hb⟩ := hv
  obtain ⟨s, hs⟩ := ht
  obtain ⟨av, hav⟩ := ha (step.attr.getD "undefined")
  obtain ⟨en, hen⟩ := he
  obtain ⟨ck, hck⟩ := hch
  obtain ⟨iv, hiv⟩ := hi
  constructor
  · cases k <;>
      simp only [evaluateAssertion, hk, hn, hb, hs, hav, hen, hck, hiv] <;>
      first
        | exact ⟨_, rfl⟩
        | (cases hw : o.waitAttached <;> simp only [hw] <;> exact ⟨_, rfl⟩)
        | (by_cases h0 : n = 0 <;> simp only [h0, if_pos, if_neg, reduceIte] <;>
            exact ⟨_, rfl⟩)
  · intro hwk e hw r hr
    cases k <;> simp only [waitsForAttached] at hwk <;>
      first
        | exact absurd hwk (by decide)
        | (simp only [evaluateAssertion, hk, hw, Except.ok.injEq] at hr
           rw [← hr]
           exact ⟨rfl, rfl⟩)

/-- C9 witness: a `visible` assertion against an oracle whose attached wait
times out is reported as data (`passed = false`,
`actual = "element not found in DOM"`), and against a responsive oracle the
evaluator returns a record. -/
theorem claim9_witness :
    (∃ r, evaluateAssertion oracleDetached stepAssertVisible 5000 = .ok r)
    ∧ (∀ r, evaluateAssertion oracleDetached stepAssertVisible 5000 = .ok r →
        r.passed = false ∧ r.actual = some "element not found in DOM")
    ∧ (∃ r, evaluateAssertion oracleOk stepAssertVisible 5000 = .ok r) := by
  refine ⟨?_, ?_, ?_⟩
  · exact (claim9_assertion_failure_is_data oracleDetached stepAssertVisible 5000
      .visible rfl ⟨1, rfl⟩ ⟨true, rfl⟩ ⟨"Hello", rfl⟩ (fun a => ⟨some "v", rfl⟩)
      ⟨true, rfl⟩ ⟨false, rfl⟩ ⟨"hello", rfl⟩).1
  · exact (claim9_assertion_failure_is_data oracleDetached stepAssertVisible 5000
      .visible rfl ⟨1, rfl⟩ ⟨true, rfl⟩ ⟨"Hello", rfl⟩ (fun a => ⟨some "v", rfl⟩)
      ⟨true, rfl⟩ ⟨false, rfl⟩ ⟨"hello", rfl⟩).2 rfl "Timeout 5000ms exceeded" rfl
  · exact (claim9_assertion_failure_is_data oracleOk stepAssertVisible 5000
      .visible rfl ⟨1, rfl⟩ ⟨true, rfl⟩ ⟨"Hello", rfl⟩ (fun a => ⟨some "v", rfl⟩)
      ⟨true, rfl⟩ ⟨false, rfl⟩ ⟨"hello", rfl⟩).1

/-! ## Executor loop lemmas -/

theorem failTail_stepIndex (env : ExecEnv) (i : Nat) (r : StepResult)
    (e : String) (st : ExecState) :
    ((failTail env i r e st).1).stepIndex = r.stepIndex := by
  unfold failTail
  cases h : env.shot i <;> simp [h]

theorem successTail_stepIndex (env : ExecEnv) (i : Nat) (r : StepResult)
    (st : ExecState) :
    ((successTail env i r st).1).stepIndex = r.stepIndex := by
  unfold successTail
  cases h : env.shot i <;> simp [h, failTail_stepIndex]

theorem stepRun_stepIndex (env : ExecEnv) (sid : String) (s : WorkflowStep)
    (i : Nat) (st : ExecState) :
    ((stepRun env sid s i st).1).stepIndex = i := by
  unfold stepRun
  cases hval : validateStep s i with
  | some err => simp [initResult]
  | none =>
      cases ha : s.action <;> simp only [ha]
      case click =>
          cases hact : env.act i <;>
            simp [hact, failTail_stepIndex, successTail_stepIndex, initResult]
      case typeText =>
          cases hact : env.act i <;>
            simp [hact, failTail_stepIndex, successTail_stepIndex, initResult]
      case waitFor =>
          cases hact : env.act i <;>
            simp [hact, failTail_stepIndex, successTail_stepIndex, initResult]
      case screenshot => simp [successTail_stepIndex, initResult]
      case assert => simp [initResult]
      case navigate =>
          cases hact : env.act i with
          | error e => simp [hact, failTail_stepIndex, initResult]
          | ok u =>
              simp only [hact]
              cases hpr : st.sm.getPageRef sid st.pageIdentifier with
              | none => simp [hpr, successTail_stepIndex, initResult]
              | some oldRef =>
                  simp only [hpr]
                  cases hset : SessionManager.setPageRef
                      (st.sm.removePageRef sid st.pageIdentifier) sid
                      (s.url.getD "") { oldRef with url := some (s.url.getD "") } with
                  | error e => simp [hset, failTail_stepIndex, initResult]
                  | ok sm2 => simp [hset, successTail_stepIndex, initResult]

theorem execGo_length_le
    (f : WorkflowStep → Nat → ExecState → StepResult × ExecState)
    (l : List WorkflowStep) (i : Nat) (st : ExecState) :
    (execGo f l i st).1.length ≤ l.length := by
  induction l generalizing i st with
  | nil => simp [execGo]
  | cons s rest ih =>
      simp only [execGo]
      by_cases hs : (f s i st).1.success = true
      · rw [if_pos hs]
        have := ih (i + 1) (f s i st).2
        simp only [List.length_cons]
        omega
      · rw [if_neg hs]
        simp

theorem execGo_stepIndex
    (f : WorkflowStep → Nat → ExecState → StepResult × ExecState)
    (hf : ∀ s j st, ((f s j st).1).stepIndex = j)
    (l : List WorkflowStep) (i : Nat) (st : ExecState) :
    ∀ (k : Nat) (r : StepResult), (execGo f l i st).1[k]? = some r →
      r.stepIndex = i + k := by
  induction l generalizing i st with
  | nil => intro k r hr; simp [execGo] at hr
  | cons s rest ih =>
      intro k r hr
      simp only [execGo] at hr
      by_cases hs : (f s i st).1.success = true
      · rw [if_pos hs] at hr
        match k with
        | 0 =>
            simp only [List.getElem?_cons_zero, Option.some.injEq] at hr
            rw [← hr]
            simpa using hf s i st
        | k' + 1 =>
            simp only [List.getElem?_cons_succ] at hr
            have := ih (i + 1) (f s i st).2 k' r hr
            omega
      · rw [if_neg hs] at hr
        match k with
        | 0 =>
            simp only [List.getElem?_cons_zero, Option.some.injEq] at hr
            rw [← hr]
            simpa using hf s i st
        | k' + 1 => simp at hr

theorem execGo_success_of_not_last
    (f : WorkflowStep → Nat → ExecState → StepResult × ExecState)
    (l : List WorkflowStep) (i : Nat) (st : ExecState) :
    ∀ (k : Nat) (r : StepResult), (execGo f l i st).1[k]? = some r →
      k + 1 < (execGo f l i st).1.length → r.success = true := by
  induction l generalizing i st with
  | nil => intro k r hr; simp [execGo] at hr
  | cons s rest ih =>
      intro k r hr hlt
      simp only [execGo] at hr hlt
      by_cases hs : (f s i st).1.success = true
      · rw [if_pos hs] at hr hlt
        match k with
        | 0 =>
            simp only [List.getElem?_cons_zero, Option.some.injEq] at hr
            rw [← hr]
            exact hs
        | k' + 1 =>
            simp only [List.getElem?_cons_succ] at hr
            exact ih (i + 1) (f s i st).2 k' r hr (by simpa using hlt)
      · rw [if_neg hs] at hr hlt
        match k with
        | 0 => simp at hlt
        | k' + 1 => simp at hr

/-- C6 (corrected: the strictness condition holds for failures before the
final step — see `claim6_counterexample`).  Every workflow execution yields
results strictly in step order (the result at position `k` has
`stepIndex = k`), at most one result per workflow step, and strictly fewer
results than steps whenever a step that is not the final one failed. -/
theorem claim6_results_in_order (env : ExecEnv) (steps : List WorkflowStep)
    (sm : SessionManager) (sessionId pageIdentifier : String) :
    (∀ (k : Nat) (r : StepResult),
      (executeWorkflow env steps sm sessionId pageIdentifier).1.steps[k]? = some r →
      r.stepIndex = k)
    ∧ (executeWorkflow env steps sm sessionId pageIdentifier).1.steps.length ≤ steps.length
    ∧ (∀ (k : Nat) (r : StepResult),
        (executeWorkflow env steps sm sessionId pageIdentifier).1.steps[k]? = some r →
        r.success = false → k + 1 < steps.length →
        (executeWorkflow env steps sm sessionId pageIdentifier).1.steps.length < steps.length) := by
  refine ⟨?_, ?_, ?_⟩
  · intro k r hr
    have hr' : (execGo (stepRun env sessionId) steps 0
        { sm := sm, pageIdentifier := pageIdentifier }).1[k]? = some r := hr
    have h := execGo_stepIndex (stepRun env sessionId)
      (fun s j st => stepRun_stepIndex env sessionId s j st) steps 0
      { sm := sm, pageIdentifier := pageIdentifier } k r hr'
    simpa using h
  · exact execGo_length_le (stepRun env sessionId) steps 0 _
  · intro k r hr hfail hklt
    by_contra hcon
    push_neg at hcon
    have hr' : (execGo (stepRun env sessionId) steps 0
        { sm := sm, pageIdentifier := pageIdentifier }).1[k]? = some r := hr
    have hcon' : steps.length ≤ (execGo (stepRun env sessionId) steps 0
        { sm := sm, pageIdentifier := pageIdentifier }).1.length := hcon
    have hle := execGo_length_le (stepRun env sessionId) steps 0
      { sm := sm, pageIdentifier := pageIdentifier }
    have heq : (execGo (stepRun env sessionId) steps 0
        { sm := sm, pageIdentifier := pageIdentifier }).1.length = steps.length :=
      le_antisymm hle hcon'
    have hsucc := execGo_success_of_not_last (stepRun env sessionId) steps 0
      { sm := sm, pageIdentifier := pageIdentifier } k r hr' (by rw [heq]; exact hklt)
    rw [hsucc] at hfail
    exact Bool.noConfusion hfail

/-- C6 counterexample: a one-step workflow whose single step fails (a
`click` with no selector) produces exactly one StepResult — the list is as
long as the workflow although a step failed, so the claim strictness
clause fails when the failing step is the last one. -/
theorem claim6_counterexample :
    (executeWorkflow envOk [stepClickBad] smEmpty "s" "p").1.steps.map StepResult.success = [false]
    ∧ ¬ ((executeWorkflow envOk [stepClickBad] smEmpty "s" "p").1.steps.length
          < ([stepClickBad] : List WorkflowStep).length) := by
  decide

/-- C6 witness: a two-step workflow failing at step 0 yields one result
with `stepIndex = 0`, and the strictness clause applies (1 < 2). -/
theorem claim6_witness :
    ((executeWorkflow envOk [stepClickBad, stepClickC4] smEmpty "s" "p").1.steps.length
      < ([stepClickBad, stepClickC4] : List WorkflowStep).length)
    ∧ resClickBad.stepIndex = 0 := by
  have h := claim6_results_in_order envOk [stepClickBad, stepClickC4] smEmpty "s" "p"
  have hr : (executeWorkflow envOk [stepClickBad, stepClickC4] smEmpty "s" "p").1.steps[0]?
      = some resClickBad := by decide
  exact ⟨h.2.2 0 resClickBad hr (by decide) (by decide), h.1 0 resClickBad hr⟩

/-! ## Tool-level validation lemmas -/

theorem collectErrorsFrom_ne_nil (l : List WorkflowStep) (i j : Nat)
    (hj : j < l.length) (hbad : validateStep (l.get ⟨j, hj⟩) (i + j) ≠ none) :
    collectErrorsFrom l i ≠ [] := by
  induction l generalizing i j with
  | nil => simp at hj
  | cons s rest ih =>
      match j with
      | 0 =>
          simp only [List.get] at hbad
          rw [collectErrorsFrom]
          cases hv : validateStep s i with
          | none =>
              simp only [Nat.add_zero] at hbad
              exact absurd hv hbad
          | some e => simp
      | j' + 1 =>
          rw [collectErrorsFrom]
          cases hv : validateStep s i with
          | none =>
              exact ih (i + 1) j' (by simpa using hj)
                (by have : i + 1 + j' = i + (j' + 1) := by omega
                    rw [this]
                    simpa using hbad)
          | some e => simp

/-- C3 (confirmed): the `run_workflow` tool validates every step up front;
whenever any step is invalid — for a known session and a resolvable
surface, so that validation is what decides — the reply is the validation
tool error: no StepResult is produced, no surface operation is dispatched,
and the registry is unchanged. -/
theorem claim3_validation_halts (env : ExecEnv) (sm : SessionManager)
    (sessionId : String) (steps : List WorkflowStep)
    (pageIdentifier : Option String)
    (sess : Session) (hsess : sm.get sessionId = some sess)
    (p : Nat) (ident : String) (t : PageType)
    (hpage : getActivePage sm sessionId pageIdentifier = .ok p ident t)
    (j : Nat) (hj : j < steps.length)
    (hbad : validateStep (steps.get ⟨j, hj⟩) j ≠ none) :
    runWorkflowTool env sm sessionId steps pageIdentifier =
      (.toolError "Workflow validation failed"
        (some (String.intercalate "; " (collectValidationErrors steps)))
        (some "Fix the step parameters and retry."), sm, [])
    ∧ responseStepResults (runWorkflowTool env sm sessionId steps pageIdentifier).1 = [] := by
  have hne : collectValidationErrors steps ≠ [] :=
    collectErrorsFrom_ne_nil steps 0 j hj (by simpa using hbad)
  have hlen : (collectValidationErrors steps).length > 0 := by
    cases h : collectValidationErrors steps with
    | nil => exact absurd h hne
    | cons a l => simp
  have hmain : runWorkflowTool env sm sessionId steps pageIdentifier =
      (.toolError "Workflow validation failed"
        (some (String.intercalate "; " (collectValidationErrors steps)))
        (some "Fix the step parameters and retry."), sm, []) := by
    simp only [runWorkflowTool, hsess, hpage]
    rw [if_pos hlen]
  exact ⟨hmain, by rw [hmain]; rfl⟩

/-- C3 witness: a workflow whose first step is `click` with no selector,
against a registry with a known session and one surface, yields the
validation tool error with zero step results and an empty operation
trace. -/
theorem claim3_witness :
    runWorkflowTool envOk smC3 "s" [stepClickBad] none =
      (.toolError "Workflow validation failed"
        (some (String.intercalate "; " (collectValidationErrors [stepClickBad])))
        (some "Fix the step parameters and retry."), smC3, [])
    ∧ responseStepResults (runWorkflowTool envOk smC3 "s" [stepClickBad] none).1 = [] := by
  exact claim3_validation_halts envOk smC3 "s" [stepClickBad] none
    sessS (by decide) prWeb1.page "u1" PageType.web (by decide)
    0 (by decide) (by decide)

/-- C5, evaluated at the failing input: a workflow `navigate` step that
succeeds moves only the page reference to the new URL; the console
collector registered under the old identifier stays under the old key and
no collector appears under the new one, so the promised full re-keying of
the registry does not happen.  (The standalone `navigate` tool calls
`rekeyIdentifier`, which moves all five maps — the workflow executor
performs only the `removePageRef`/`setPageRef` pair.) -/
theorem claim5_navigate_leaves_collectors :
    (executeWorkflow envOk [stepNavC5] smC5 "s" "u1").1.completedSteps = 1
    ∧ (executeWorkflow envOk [stepNavC5] smC5 "s" "u1").2.1.getPageRef "s" "u2"
        = some { prWeb1 with url := some "u2" }
    ∧ (executeWorkflow envOk [stepNavC5] smC5 "s" "u1").2.1.getPageRef "s" "u1" = none
    ∧ (executeWorkflow envOk [stepNavC5] smC5 "s" "u1").2.1.getConsoleCollector "s" "u2" = none
    ∧ (executeWorkflow envOk [stepNavC5] smC5 "s" "u1").2.1.getConsoleCollector "s" "u1"
        = some colC
    ∧ (smC5.rekeyIdentifier "s" "u1" "u2").getConsoleCollector "s" "u2" = some colC := by
  decide

/-! ## Shape lemmas for the step tails -/

theorem successTail_shape (env : ExecEnv) (i : Nat) (r : StepResult)
    (st : ExecState) (sc : Screenshot) (h : env.shot i = .ok sc) :
    successTail env i r st =
      ({ r with
          screenshotBase64 := some sc.data
          screenshotMimeType := some sc.mimeType
          consoleDelta := (env.consoleSeen i).drop st.lastConsoleCount
          errorDelta := (env.errorsSeen i).drop st.lastErrorCount
          success := true },
       { st with
          lastConsoleCount := (env.consoleSeen i).length
          lastErrorCount := (env.errorsSeen i).length }) := by
  unfold successTail
  rw [h]

theorem failTail_success (env : ExecEnv) (i : Nat) (r : StepResult)
    (e : String) (st : ExecState) :
    ((failTail env i r e st).1).success = r.success := by
  unfold failTail
  cases h : env.shot i <;> simp [h]

theorem failTail_assertion (env : ExecEnv) (i : Nat) (r : StepResult)
    (e : String) (st : ExecState) :
    ((failTail env i r e st).1).assertion = r.assertion := by
  unfold failTail
  cases h : env.shot i <;> simp [h]

/-- C4 (confirmed, against the spec-modelled assert-capable executor): for
the workflow `[click(#ok), type(#box, "hi"), assert(text-equals, "Wrong")]`
run on a surface where click, type and both screenshots succeed and the
assertion evaluates to a `passed:false` record, `execute` returns three
StepResults with success flags `[true, true, false]`, `completedSteps = 2`,
`failedStep = 2`, and the third result carrying the `passed:false`
assertion record — and, being a total function, without an exception. -/
theorem claim4_click_type_assert (env : ExecEnv) (sm : SessionManager)
    (sessionId pageIdentifier : String) (ar : AssertionResult)
    (h0 : env.act 0 = .ok ()) (sc0 : Screenshot) (hs0 : env.shot 0 = .ok sc0)
    (h1 : env.act 1 = .ok ()) (sc1 : Screenshot) (hs1 : env.shot 1 = .ok sc1)
    (h2 : evaluateAssertion (env.pageAt 2) stepAssertC4 30000 = .ok ar)
    (har : ar.passed = false) :
    (executeWorkflowWithAssert env [stepClickC4, stepTypeC4, stepAssertC4]
        sm sessionId pageIdentifier).1.steps.map StepResult.success = [true, true, false]
    ∧ (executeWorkflowWithAssert env [stepClickC4, stepTypeC4, stepAssertC4]
        sm sessionId pageIdentifier).1.totalSteps = 3
    ∧ (executeWorkflowWithAssert env [stepClickC4, stepTypeC4, stepAssertC4]
        sm sessionId pageIdentifier).1.completedSteps = 2
    ∧ (executeWorkflowWithAssert env [stepClickC4, stepTypeC4, stepAssertC4]
        sm sessionId pageIdentifier).1.failedStep = some 2
    ∧ (executeWorkflowWithAssert env [stepClickC4, stepTypeC4, stepAssertC4]
        sm sessionId pageIdentifier).1.steps.map StepResult.assertion
        = [none, none, some ar] := by
  have hto : stepAssertC4.timeout.getD 30000 = 30000 := rfl
  simp only [executeWorkflowWithAssert, execGo, stepRunWithAssert,
    stepRun, validateStepWithAssert, validateStep,
    (show stepClickC4.action = StepAction.click from rfl),
    (show stepTypeC4.action = StepAction.typeText from rfl),
    (show stepAssertC4.action = StepAction.assert from rfl),
    (show jsFalsy stepClickC4.selector = false from rfl),
    (show jsFalsy stepTypeC4.selector = false from rfl),
    (show jsFalsy stepAssertC4.selector = false from rfl),
    (show stepTypeC4.text.isNone = false from rfl),
    (show stepAssertC4.assertType.isNone = false from rfl),
    Bool.false_eq_true, if_false, hto,
    h0, h1, h2, har, hs0, hs1, buildResult]
  simp [successTail_shape env 0 _ _ sc0 hs0, successTail_shape env 1 _ _ sc1 hs1,
    failTail_success, failTail_assertion, failTail_stepIndex, buildResult, initResult]

/-- C4 witness: the scenario run against the concrete all-ok environment,
whose surface carries inner text `Hello` (so `text-equals "Wrong"` fails
with the concrete record `arC4`). -/
theorem claim4_witness :
    (executeWorkflowWithAssert envOk [stepClickC4, stepTypeC4, stepAssertC4]
        smEmpty "s" "p").1.steps.map StepResult.success = [true, true, false]
    ∧ (executeWorkflowWithAssert envOk [stepClickC4, stepTypeC4, stepAssertC4]
        smEmpty "s" "p").1.completedSteps = 2
    ∧ (executeWorkflowWithAssert envOk [stepClickC4, stepTypeC4, stepAssertC4]
        smEmpty "s" "p").1.failedStep = some 2
    ∧ (executeWorkflowWithAssert envOk [stepClickC4, stepTypeC4, stepAssertC4]
        smEmpty "s" "p").1.steps.map StepResult.assertion = [none, none, some arC4] := by
  have h := claim4_click_type_assert envOk smEmpty "s" "p" arC4
    rfl { data := "img", mimeType := "image/webp" } rfl
    rfl { data := "img", mimeType := "image/webp" } rfl
    (by decide) rfl
  exact ⟨h.1, h.2.2.1, h.2.2.2.1, h.2.2.2.2⟩

end Feedback
